import Mathlib

/-!
# Login-redirect detection engine: a shallow embedding

This file embeds the site-aware login-redirect detection engine of the
karakeep repository (`apps/workers/login-redirect-detection/`) in Lean 4
and proves the specification's claims about it.

The embedding follows the TypeScript source:
* `rules/instagram.ts` — the Instagram rule, its URL test and its five
  detection signals;
* `rules/index.ts` — the rule registry and `findRuleForUrl`;
* `index.ts` — `evaluateRule`, `detectLoginRedirect`,
  `assertNoLoginRedirect` and `LoginRedirectDetectedError` (two revisions
  of this file appear in the source; the revision that validates
  `browserUrl` before consulting it is the primary one, the revision
  without that validation is embedded as `detectLoginRedirectNoUrlValidation`).

External collaborators are modelled, not reimplemented:
* JavaScript string primitives (`includes`, `endsWith`, `toLowerCase`,
  `trim`) are modelled over the character lists of Lean strings;
* the WHATWG `new URL(...)` constructor is modelled by `parseURL`, a
  scheme/host/path parser sufficient for the URL shapes the engine
  inspects (it throws, i.e. returns `none`, on strings without a valid
  scheme, and requires a non-empty host for the special web schemes);
* the cheerio HTML parse `load(htmlContent)` is an out-of-scope external
  library; it enters the embedding as an explicit function
  `load : String → Html` from raw HTML to a DOM tree, and the cheerio
  queries the signals use (`$(selector).length`, `.text()`, the
  clone/remove-script-style-noscript/text chain) are modelled as
  functions over that tree.
-/

/-! ## JavaScript string primitives -/

/-- Is `sub` a contiguous infix of `l`? (Boolean version.) -/
def listInfix (sub l : List Char) : Bool :=
  match l with
  | [] => sub.isEmpty
  | _ :: t => sub.isPrefixOf l || listInfix sub t

/-- Model of JavaScript `String.prototype.includes` (substring test). -/
def jsIncludes (s sub : String) : Bool :=
  listInfix sub.toList s.toList

/-- Model of JavaScript `String.prototype.endsWith`. -/
def jsEndsWith (s suffix : String) : Bool :=
  suffix.toList.isSuffixOf s.toList

/-- Model of JavaScript `String.prototype.toLowerCase` (ASCII range). -/
def jsToLower (s : String) : String :=
  String.mk (s.toList.map Char.toLower)

/-- Model of the JavaScript regex class `\s` (whitespace). -/
def jsIsSpace (c : Char) : Bool :=
  c = ' ' || c = '\t' || c = '\n' || c = '\r' || c = '\x0b' || c = '\x0c'

/-- Model of JavaScript `String.prototype.trim`: strip leading and
trailing whitespace. -/
def jsTrim (s : String) : String :=
  String.mk (((s.toList.dropWhile jsIsSpace).reverse.dropWhile jsIsSpace).reverse)

/-! ## WHATWG URL model

`parseURL` models `new URL(url)` closely enough for the engine: it
extracts the scheme (`protocol`), the host (`hostname`, lower-cased,
terminated at `:`/`/`/`\`/`?`/`#`) and the path (`pathname`).  Special
web schemes (http, https, ws, wss, ftp) require a non-empty host and
skip any run of slashes after the colon; a non-special scheme (e.g.
`about:`, `javascript:`) accepts an opaque remainder.  A string without
a leading `scheme:` (empty string, plain words, scheme-less hosts)
fails to parse, which models the `URL` constructor throwing. -/

/-- The parsed URL components the engine reads. -/
structure ParsedUrl where
  /-- scheme plus trailing colon, e.g. `"https:"` — models `url.protocol`. -/
  protocol : String
  /-- lower-cased host, e.g. `"www.instagram.com"` — models `url.hostname`. -/
  hostname : String
  /-- the path, e.g. `"/p/ABC123/"` — models `url.pathname`. -/
  pathname : String
deriving DecidableEq

/-- Characters allowed in a URL scheme after the first letter. -/
def isSchemeChar (c : Char) : Bool :=
  c.isAlphanum || c = '+' || c = '-' || c = '.'

/-- Split `scheme ":" rest` at the first colon, requiring every scheme
character to be legal; `none` when no colon is reached. -/
def splitOnColon : List Char → Option (List Char × List Char)
  | [] => none
  | c :: rest =>
    if c = ':' then some ([], rest)
    else if isSchemeChar c then
      match splitOnColon rest with
      | some (sch, rem) => some (c :: sch, rem)
      | none => none
    else none

/-- The WHATWG special schemes that get authority (host) parsing even
without a literal `//`. -/
def specialSchemes : List String := ["http", "https", "ws", "wss", "ftp", "file"]

/-- A character that terminates the host component. -/
def isHostEnd (c : Char) : Bool :=
  c = ':' || c = '/' || c = '\\' || c = '?' || c = '#'

/-- A character that terminates the path component. -/
def isPathEnd (c : Char) : Bool :=
  c = '?' || c = '#'

/-- Skip an optional `":" digits*` port after the host. -/
def dropPort : List Char → List Char
  | ':' :: r => r.dropWhile Char.isDigit
  | r => r

/-- Model of the WHATWG `new URL(url)` constructor: `none` models the
constructor throwing `TypeError` on an unparsable URL. -/
def parseURL (url : String) : Option ParsedUrl :=
  match splitOnColon (jsTrim url).toList with
  | none => none
  | some (sch, rest) =>
    match sch with
    | [] => none
    | c0 :: _ =>
      if c0.isAlpha then
        let scheme := jsToLower (String.mk sch)
        if specialSchemes.contains scheme then
          let afterSlashes := rest.dropWhile (fun c => c = '/' || c = '\\')
          let host := afterSlashes.takeWhile (fun c => !isHostEnd c)
          if host.isEmpty && scheme ≠ "file" then none
          else
            let afterPort := dropPort (afterSlashes.drop host.length)
            let path := afterPort.takeWhile (fun c => !isPathEnd c)
            some { protocol := scheme ++ ":",
                   hostname := jsToLower (String.mk host),
                   pathname := if path.isEmpty then "/" else String.mk path }
        else
          match rest with
          | '/' :: '/' :: r =>
            let host := r.takeWhile (fun c => !isHostEnd c)
            let afterPort := dropPort (r.drop host.length)
            let path := afterPort.takeWhile (fun c => !isPathEnd c)
            some { protocol := scheme ++ ":",
                   hostname := jsToLower (String.mk host),
                   pathname := String.mk path }
          | _ =>
            some { protocol := scheme ++ ":",
                   hostname := "",
                   pathname := String.mk (rest.takeWhile (fun c => !isPathEnd c)) }
      else none

/-! ## DOM model (cheerio view)

The source parses `htmlContent` with cheerio (`load`) and queries the
result.  The DOM is a tree of elements (tag, attributes, children) and
text nodes; the queries used by the signals are modelled below. -/

/-- A parsed HTML node: the queryable DOM view the signals evaluate
against (the cheerio handle `$`). -/
inductive Html where
  | element (tag : String) (attrs : List (String × String)) (children : List Html)
  | text (s : String)

mutual
/-- All nodes of the subtree rooted at a node, in document order
(models iterating a cheerio selection over the whole document). -/
def Html.nodes : Html → List Html
  | .text s => [.text s]
  | .element t a cs => .element t a cs :: Html.nodesList cs

/-- All nodes of a forest, in document order. -/
def Html.nodesList : List Html → List Html
  | [] => []
  | c :: cs => Html.nodes c ++ Html.nodesList cs
end

mutual
/-- Concatenated text content of a subtree — models cheerio `.text()`,
which includes the contents of script/style elements. -/
def Html.allText : Html → String
  | .text s => s
  | .element _ _ cs => Html.allTextList cs

/-- Concatenated text content of a forest. -/
def Html.allTextList : List Html → String
  | [] => ""
  | c :: cs => Html.allText c ++ Html.allTextList cs
end

/-- Tags whose subtree is not rendered; the source removes exactly
`script, style, noscript` before reading visible text. -/
def nonRenderedTag (t : String) : Bool :=
  t = "script" || t = "style" || t = "noscript"

mutual
/-- Text content of a subtree with every `script`/`style`/`noscript`
subtree removed first — models the source's
`.clone().find("script, style, noscript").remove().end().text()`. -/
def Html.visibleText : Html → String
  | .text s => s
  | .element t _ cs =>
    if nonRenderedTag t then "" else Html.visibleTextList cs

/-- Visible text of a forest. -/
def Html.visibleTextList : List Html → String
  | [] => ""
  | c :: cs => Html.visibleText c ++ Html.visibleTextList cs
end

/-- Count of nodes of the document satisfying a predicate — models
`$(selector).length` for the selectors the signals use. -/
def Html.countMatches (doc : Html) (p : Html → Bool) : Nat :=
  (doc.nodes.filter p).length

/-- Is this node an element with the given tag? (models a bare tag
selector such as `article`). -/
def Html.hasTag (tag : String) : Html → Bool
  | .element t _ _ => t = tag
  | .text _ => false

/-- Does this element carry attribute `name` with value exactly `value`?
(models `tag[name="value"]`). -/
def Html.attrIs (tag name value : String) : Html → Bool
  | .element t attrs _ => t = tag && attrs.lookup name == some value
  | .text _ => false

/-- Does this element carry attribute `name` whose value contains `sub`?
(models `tag[name*="sub"]`). -/
def Html.attrContains (tag name sub : String) : Html → Bool
  | .element t attrs _ =>
    t = tag &&
      (match attrs.lookup name with
       | some v => jsIncludes v sub
       | none => false)
  | .text _ => false

/-- Does this element carry attribute `name` at all? (models
`tag[name]`). -/
def Html.attrPresent (tag name : String) : Html → Bool
  | .element t attrs _ => t = tag && (attrs.lookup name).isSome
  | .text _ => false

/-- The first `body` element of the document — models `$("body")`. -/
def Html.findBody (doc : Html) : Option Html :=
  doc.nodes.find? (Html.hasTag "body")

/-- Visible text of the document body: the text of `$("body")` after
removing `script`/`style`/`noscript` subtrees (empty when the document
has no body element). -/
def Html.bodyVisibleText (doc : Html) : String :=
  match doc.findBody with
  | some b => b.visibleText
  | none => ""

/-- Full text of the document body including script/style contents —
models `$("body").text()` with no removal. -/
def Html.bodyAllText (doc : Html) : String :=
  match doc.findBody with
  | some b => b.allText
  | none => ""

/-! ## Data model (`types.ts`) -/

/-- Extracted metadata from metascraper (all fields optional). -/
structure Metadata where
  title : Option String := none
  description : Option String := none
  image : Option String := none
  url : Option String := none
  author : Option String := none
  publisher : Option String := none
  logo : Option String := none

/-- Context passed to detection rules: the evidence bundle one `detect`
call assembles (`LoginRedirectContext` in `types.ts`).  The field `dom`
is the parsed DOM handle `$`. -/
structure LoginRedirectContext where
  originalUrl : String
  browserUrl : String
  metadata : Metadata
  htmlContent : String
  dom : Html

/-- A single detection signal (`DetectionSignal` in `types.ts`);
`weight` defaults to 1 when unset. -/
structure DetectionSignal where
  id : String
  description : String
  check : LoginRedirectContext → Bool
  weight : Option Nat := none

/-- How a rule combines its signals (`detectionMode` in `types.ts`). -/
inductive DetectionMode where
  | any
  | all
  | threshold
deriving DecidableEq

/-- A site-specific rule (`SiteLoginRedirectRule` in `types.ts`);
`thresholdWeight` defaults to 2 when unset. -/
structure SiteLoginRedirectRule where
  id : String
  siteName : String
  test : String → Bool
  signals : List DetectionSignal
  detectionMode : DetectionMode
  thresholdWeight : Option Nat := none

/-- Result of a detection check (`LoginRedirectDetectionResult`).
Absent optional fields of the TypeScript object literal are `none`. -/
structure LoginRedirectDetectionResult where
  isLoginRedirect : Bool
  reason : Option String := none
  siteName : Option String := none
deriving DecidableEq

/-- The error thrown by `assertNoLoginRedirect`
(`LoginRedirectDetectedError`); `message` is the `Error` superclass
message built in the constructor. -/
structure LoginRedirectDetectedError where
  siteName : String
  reason : String
  originalUrl : String
  message : String
deriving DecidableEq

/-! ## The Instagram rule (`rules/instagram.ts`) -/

/-- `isInstagramUrl`: the Instagram rule's URL test.  Matches
`instagram.com` and any `*.instagram.com` subdomain; a URL the `URL`
constructor rejects yields `false`. -/
def isInstagramUrl (url : String) : Bool :=
  match parseURL url with
  | some u => u.hostname = "instagram.com" || jsEndsWith u.hostname ".instagram.com"
  | none => false

/-- Does the lower-cased title match one of `LOGIN_TITLE_PATTERNS`?
The six source regexes are start-anchored:
`/^Instagram$/i`, `/^Log\s*in/i`, `/^Sign\s*in/i`,
`/^Iniciar\s*sesi[oó]n/i`, `/^Connexion/i`, `/^Anmelden/i`. -/
def loginTitleMatch (title : String) : Bool :=
  let t := (jsToLower title).toList
  t = "instagram".toList
    || ("in".toList.isPrefixOf ((t.drop 3).dropWhile jsIsSpace) && "log".toList.isPrefixOf t)
    || ("in".toList.isPrefixOf ((t.drop 4).dropWhile jsIsSpace) && "sign".toList.isPrefixOf t)
    || (("sesio".toList.isPrefixOf ((t.drop 7).dropWhile jsIsSpace)
          || "sesió".toList.isPrefixOf ((t.drop 7).dropWhile jsIsSpace))
        && "iniciar".toList.isPrefixOf t)
    || "connexion".toList.isPrefixOf t
    || "anmelden".toList.isPrefixOf t

/-- Signal `generic-title`: the page title, trimmed, matches a generic
login-page pattern; a missing or empty title yields `false`. -/
def genericTitleCheck (ctx : LoginRedirectContext) : Bool :=
  match ctx.metadata.title with
  | none => false
  | some t0 =>
    let title := jsTrim t0
    if title = "" then false else loginTitleMatch title

/-- Strip trailing slashes — models `.replace(/\/+$/, "")`. -/
def stripTrailingSlashes (s : String) : String :=
  String.mk ((s.toList.reverse.dropWhile (fun c => c = '/')).reverse)

/-- `path.replace(/\/+$/, "") || "/"`: strip trailing slashes, falling
back to `"/"` when the result is empty. -/
def normalizedPath (s : String) : String :=
  let r := stripTrailingSlashes s
  if r = "" then "/" else r

/-- Does the path mention one of the Instagram content segments? -/
def hasContentSegment (path : String) : Bool :=
  jsIncludes path "/p/" || jsIncludes path "/reel/" || jsIncludes path "/stories/"

/-- Signal `og-url-mismatch`: `og:url` points at the homepage (or at a
non-content path) although a specific content path was requested; any
URL parse failure yields `false`. -/
def ogUrlMismatchCheck (ctx : LoginRedirectContext) : Bool :=
  match ctx.metadata.url with
  | none => false
  | some ogUrl =>
    if ogUrl = "" then false
    else
      match parseURL ogUrl, parseURL ctx.originalUrl with
      | some ogUrlObj, some originalUrlObj =>
        let ogPath := normalizedPath ogUrlObj.pathname
        let originalPath := normalizedPath originalUrlObj.pathname
        if originalPath ≠ "/" && ogPath = "/" then true
        else if hasContentSegment originalPath then !hasContentSegment ogPath
        else false
      | _, _ => false

/-- Signal `password-form-present`: the DOM has a password input
(`input[type="password"]`) or a login-flavoured form action
(`form[action*="login"]`, `form[action*="accounts"]`). -/
def passwordFormPresentCheck (ctx : LoginRedirectContext) : Bool :=
  let hasPasswordInput := ctx.dom.countMatches (Html.attrIs "input" "type" "password") > 0
  let hasLoginForm :=
    ctx.dom.countMatches (Html.attrContains "form" "action" "login") > 0
      || ctx.dom.countMatches (Html.attrContains "form" "action" "accounts") > 0
  hasPasswordInput || hasLoginForm

/-- Signal `login-button-present`: the visible body text (scripts,
styles and noscript subtrees removed, lower-cased) contains all three
of "log in", "sign up" and "forgot password". -/
def loginButtonPresentCheck (ctx : LoginRedirectContext) : Bool :=
  let visibleText := jsToLower ctx.dom.bodyVisibleText
  jsIncludes visibleText "log in"
    && jsIncludes visibleText "sign up"
    && jsIncludes visibleText "forgot password"

/-- Signal `no-post-content`: the requested URL names a post, reel or
story but the DOM has neither an `article` element nor a
`time[datetime]` element. -/
def noPostContentCheck (ctx : LoginRedirectContext) : Bool :=
  let hasArticle := ctx.dom.countMatches (Html.hasTag "article") > 0
  let hasPostMeta := ctx.dom.countMatches (Html.attrPresent "time" "datetime") > 0
  let expectsPost :=
    jsIncludes ctx.originalUrl "/p/"
      || jsIncludes ctx.originalUrl "/reel/"
      || jsIncludes ctx.originalUrl "/stories/"
  expectsPost && !hasArticle && !hasPostMeta

/-- The five Instagram detection signals, in declaration order. -/
def instagramSignals : List DetectionSignal :=
  [ { id := "generic-title",
      description := "Page title is generic 'Instagram' instead of post-specific",
      weight := some 2,
      check := genericTitleCheck },
    { id := "og-url-mismatch",
      description := "og:url points to homepage instead of requested URL",
      weight := some 2,
      check := ogUrlMismatchCheck },
    { id := "password-form-present",
      description := "Page contains password input field (login form)",
      weight := some 1,
      check := passwordFormPresentCheck },
    { id := "login-button-present",
      description := "Page contains prominent login/signup buttons",
      weight := some 1,
      check := loginButtonPresentCheck },
    { id := "no-post-content",
      description := "Page lacks expected post content structure",
      weight := some 1,
      check := noPostContentCheck } ]

/-- The Instagram login redirect detection rule. -/
def instagramRule : SiteLoginRedirectRule :=
  { id := "instagram",
    siteName := "Instagram",
    test := isInstagramUrl,
    signals := instagramSignals,
    detectionMode := .threshold,
    thresholdWeight := some 3 }

/-! ## Rule registry (`rules/index.ts`) -/

/-- Registry of all site-specific login redirect rules. -/
def loginRedirectRules : List SiteLoginRedirectRule :=
  [instagramRule]

/-- Find the applicable rule for a given URL: the first registered rule
whose `test` accepts the URL. -/
def findRuleForUrl (url : String) : Option SiteLoginRedirectRule :=
  loginRedirectRules.find? (fun rule => rule.test url)

/-! ## Evaluator and public facade (`index.ts`) -/

/-- One entry of the evaluator's `signalResults` array:
`{ id, matched, weight }`. -/
structure SignalOutcome where
  id : String
  matched : Bool
  weight : Nat
deriving DecidableEq

/-- The outcome record the evaluator pushes for one signal:
`{ id: signal.id, matched: signal.check(context), weight: signal.weight ?? 1 }`. -/
def signalOutcome (context : LoginRedirectContext) (signal : DetectionSignal) : SignalOutcome :=
  { id := signal.id, matched := signal.check context, weight := signal.weight.getD 1 }

/-- The evaluator's `signalResults`: every signal of the rule evaluated
against the context, in rule-declaration order. -/
def signalOutcomes (rule : SiteLoginRedirectRule) (context : LoginRedirectContext) :
    List SignalOutcome :=
  rule.signals.map (signalOutcome context)

/-- The evaluator's `matchedSignals`: the outcomes whose signal matched. -/
def matchedOutcomes (rule : SiteLoginRedirectRule) (context : LoginRedirectContext) :
    List SignalOutcome :=
  (signalOutcomes rule context).filter (fun r => r.matched)

/-- The evaluator's `totalWeight`:
`matchedSignals.reduce((sum, r) => sum + r.weight, 0)`. -/
def totalMatchedWeight (rule : SiteLoginRedirectRule) (context : LoginRedirectContext) : Nat :=
  (matchedOutcomes rule context).foldl (fun sum r => sum + r.weight) 0

/-- The evaluator's `isLoginRedirect` switch: reduce the matched
signals per the rule's detection mode (`any` / `all` / `threshold`,
the threshold defaulting to 2 via `?? 2`). -/
def ruleFired (rule : SiteLoginRedirectRule) (context : LoginRedirectContext) : Bool :=
  match rule.detectionMode with
  | .any => decide ((matchedOutcomes rule context).length > 0)
  | .all => decide ((matchedOutcomes rule context).length = rule.signals.length)
  | .threshold => decide (totalMatchedWeight rule context ≥ rule.thresholdWeight.getD 2)

/-- The evaluator's `reasons` array: for each matched outcome, the
description of the rule signal found by id (falling back to the id). -/
def reasons (rule : SiteLoginRedirectRule) (context : LoginRedirectContext) : List String :=
  (matchedOutcomes rule context).map (fun s =>
    match rule.signals.find? (fun sig => sig.id == s.id) with
    | some signal => signal.description
    | none => s.id)

/-- `evaluateRule`: evaluate all signals of a rule against the context
and reduce per the rule's detection mode; when positive, report the
rule's site name and the matched signals' descriptions joined with
`"; "`. -/
def evaluateRule (rule : SiteLoginRedirectRule) (context : LoginRedirectContext) :
    LoginRedirectDetectionResult :=
  if ruleFired rule context then
    { isLoginRedirect := true,
      siteName := some rule.siteName,
      reason := some (String.intercalate "; " (reasons rule context)) }
  else
    { isLoginRedirect := false }

/-- `isValidHttpUrl`: is the string a syntactically valid HTTP/HTTPS
URL?  (Helper of the primary `detectLoginRedirect` revision.) -/
def isValidHttpUrl (url : String) : Bool :=
  match parseURL url with
  | some parsed => parsed.protocol = "http:" || parsed.protocol = "https:"
  | none => false

/-- `detectLoginRedirect` (primary revision): resolve a rule from
`originalUrl`, falling back to `browserUrl` only when `browserUrl` is a
valid HTTP/HTTPS URL; with no rule the page is not a login redirect,
otherwise parse the HTML (`load`, the external cheerio parse, passed as
a function) once, build the context and evaluate the rule. -/
def detectLoginRedirect (load : String → Html) (originalUrl browserUrl : String)
    (metadata : Metadata) (htmlContent : String) : LoginRedirectDetectionResult :=
  let rule :=
    match findRuleForUrl originalUrl with
    | some r => some r
    | none => if isValidHttpUrl browserUrl then findRuleForUrl browserUrl else none
  match rule with
  | none => { isLoginRedirect := false }
  | some rule =>
    let context : LoginRedirectContext :=
      { originalUrl := originalUrl,
        browserUrl := browserUrl,
        metadata := metadata,
        htmlContent := htmlContent,
        dom := load htmlContent }
    evaluateRule rule context

/-- `detectLoginRedirect` (earlier revision of `index.ts`): identical
except that `browserUrl` is consulted with no validity check:
`findRuleForUrl(originalUrl) ?? findRuleForUrl(browserUrl)`. -/
def detectLoginRedirectNoUrlValidation (load : String → Html) (originalUrl browserUrl : String)
    (metadata : Metadata) (htmlContent : String) : LoginRedirectDetectionResult :=
  let rule :=
    match findRuleForUrl originalUrl with
    | some r => some r
    | none => findRuleForUrl browserUrl
  match rule with
  | none => { isLoginRedirect := false }
  | some rule =>
    let context : LoginRedirectContext :=
      { originalUrl := originalUrl,
        browserUrl := browserUrl,
        metadata := metadata,
        htmlContent := htmlContent,
        dom := load htmlContent }
    evaluateRule rule context

/-- `assertNoLoginRedirect`: run the detection and convert a positive
verdict into a thrown `LoginRedirectDetectedError`; `Except.error e`
models `throw e`, `Except.ok ()` models a normal return. -/
def assertNoLoginRedirect (load : String → Html) (originalUrl browserUrl : String)
    (metadata : Metadata) (htmlContent : String) : Except LoginRedirectDetectedError Unit :=
  let result := detectLoginRedirect load originalUrl browserUrl metadata htmlContent
  if result.isLoginRedirect then
    let siteName := result.siteName.getD "Unknown"
    let reason := result.reason.getD "Login redirect detected"
    Except.error
      { siteName := siteName,
        reason := reason,
        originalUrl := originalUrl,
        message := siteName ++ " login redirect detected: " ++ reason }
  else
    Except.ok ()

/-! ## Concrete pages and contexts

Fixtures mirroring the repository's test fixtures
(`login-redirect-detection/index.test.ts`), used by the witness and
counterexample theorems below. -/

/-- The test suite's `loginPageHtml`, parsed: generic title, a password
input and visible "Log in" / "Sign up" / "Forgot password" text. -/
def loginPageDom : Html :=
  .element "html" [] [
    .element "head" [] [.element "title" [] [.text "Instagram"]],
    .element "body" [] [
      .element "input" [("type", "password")] [],
      .element "span" [] [.text "Log in"],
      .element "span" [] [.text "Sign up"],
      .element "span" [] [.text "Forgot password"]]]

/-- The test suite's `validPostHtml`, parsed: an `article` with a
`time[datetime]` and no login markers. -/
def postPageDom : Html :=
  .element "html" [] [
    .element "head" [] [.element "title" [] [.text "@user on Instagram"]],
    .element "body" [] [
      .element "article" [] [.element "time" [("datetime", "2024-01-01")] []]]]

/-- A page whose login keywords sit only inside non-rendered
containers: `script`, `style` and `noscript`. -/
def hiddenKeywordsDom : Html :=
  .element "html" [] [
    .element "head" [] [],
    .element "body" [] [
      .element "article" [] [],
      .element "script" [] [.text "const labels = \x7b login: \"log in\" \x7d;"],
      .element "style" [] [.text "/* sign up */ .button \x7b color: red; \x7d"],
      .element "noscript" [] [.text "forgot password"]]]

/-- The same login keywords, but in rendered body text. -/
def visibleKeywordsDom : Html :=
  .element "html" [] [
    .element "head" [] [],
    .element "body" [] [.text "Log in Sign up Forgot password"]]

/-- Metadata of a crawl that was redirected to the login wall: generic
title, `og:url` pointing at the homepage. -/
def loginMetadata : Metadata :=
  { title := some "Instagram", url := some "https://www.instagram.com/" }

/-- Metadata of a successful post crawl: caption title, post `og:url`. -/
def postMetadata : Metadata :=
  { title := some "@user on Instagram: \"Post caption\"",
    url := some "https://www.instagram.com/p/ABC123/" }

/-- Context of the redirected-to-login crawl of an Instagram post. -/
def loginPageCtx : LoginRedirectContext :=
  { originalUrl := "https://www.instagram.com/p/ABC123/",
    browserUrl := "https://www.instagram.com/accounts/login/",
    metadata := loginMetadata,
    htmlContent := "<html>",
    dom := loginPageDom }

/-- Context in which only the `generic-title` signal (weight 2)
matches, so the matched weight is exactly 2. -/
def thresholdTwoCtx : LoginRedirectContext :=
  { originalUrl := "https://www.instagram.com/p/ABC123/",
    browserUrl := "https://www.instagram.com/p/ABC123/",
    metadata := { title := some "Instagram",
                  url := some "https://www.instagram.com/p/ABC123/" },
    htmlContent := "<html>",
    dom := postPageDom }

/-- Context whose page hides the login keywords in non-rendered
containers. -/
def hiddenKeywordsCtx : LoginRedirectContext :=
  { originalUrl := "https://www.instagram.com/p/ABC123/",
    browserUrl := "https://www.instagram.com/p/ABC123/",
    metadata := postMetadata,
    htmlContent := "<html>",
    dom := hiddenKeywordsDom }

/-- Context whose page shows the login keywords in rendered body text. -/
def visibleKeywordsCtx : LoginRedirectContext :=
  { originalUrl := "https://www.instagram.com/p/ABC123/",
    browserUrl := "https://www.instagram.com/p/ABC123/",
    metadata := postMetadata,
    htmlContent := "<html>",
    dom := visibleKeywordsDom }

/-- A minimal context for exercising the evaluator on its own. -/
def emptyCtx : LoginRedirectContext :=
  { originalUrl := "",
    browserUrl := "",
    metadata := {},
    htmlContent := "",
    dom := .text "" }

/-- A signal with no declared weight (exercises the `?? 1` default). -/
def defaultWeightSignal (i : String) : DetectionSignal :=
  { id := i, description := "signal " ++ i, check := fun _ => true }

/-- A threshold-mode rule with no declared `thresholdWeight` (exercises
the `?? 2` default); its two unweighted signals always match. -/
def defaultThresholdRule : SiteLoginRedirectRule :=
  { id := "default-threshold", siteName := "DefaultThreshold",
    test := fun _ => false,
    signals := [defaultWeightSignal "s1", defaultWeightSignal "s2"],
    detectionMode := .threshold }

set_option maxRecDepth 16384

/-! ## Evaluator lemmas -/

/-- The verdict bit of `evaluateRule` is exactly the mode reduction. -/
theorem evaluateRule_isLoginRedirect (rule : SiteLoginRedirectRule) (ctx : LoginRedirectContext) :
    (evaluateRule rule ctx).isLoginRedirect = ruleFired rule ctx := by
  unfold evaluateRule
  by_cases h : ruleFired rule ctx <;> simp [h]

/-- Shape of the evaluator's result when the reduction is positive. -/
theorem evaluateRule_of_fired (rule : SiteLoginRedirectRule) (ctx : LoginRedirectContext)
    (h : ruleFired rule ctx = true) :
    evaluateRule rule ctx =
      { isLoginRedirect := true,
        siteName := some rule.siteName,
        reason := some (String.intercalate "; " (reasons rule ctx)) } := by
  unfold evaluateRule
  simp [h]

/-- Shape of the evaluator's result when the reduction is negative. -/
theorem evaluateRule_of_not_fired (rule : SiteLoginRedirectRule) (ctx : LoginRedirectContext)
    (h : ruleFired rule ctx = false) :
    evaluateRule rule ctx = { isLoginRedirect := false } := by
  unfold evaluateRule
  simp [h]

/-- In threshold mode the reduction compares the matched weight with
the rule's threshold (defaulted to 2). -/
theorem ruleFired_threshold (rule : SiteLoginRedirectRule) (ctx : LoginRedirectContext)
    (h : rule.detectionMode = .threshold) :
    ruleFired rule ctx = decide (totalMatchedWeight rule ctx ≥ rule.thresholdWeight.getD 2) := by
  unfold ruleFired
  rw [h]

/-- The matched outcomes are the outcomes of the signals whose check
accepted the context, in rule-declaration order. -/
theorem matchedOutcomes_eq (rule : SiteLoginRedirectRule) (ctx : LoginRedirectContext) :
    matchedOutcomes rule ctx
      = (rule.signals.filter (fun s => s.check ctx)).map (signalOutcome ctx) := by
  unfold matchedOutcomes signalOutcomes
  rw [List.filter_map]
  rfl

/-- With pairwise-distinct signal ids, looking a signal's own id back
up in the rule finds that signal. -/
theorem find_signal_by_id {l : List DetectionSignal} {s : DetectionSignal}
    (hnd : (l.map (fun x => x.id)).Nodup) (hs : s ∈ l) :
    l.find? (fun sig => sig.id == s.id) = some s := by
  induction l with
  | nil => cases hs
  | cons a t ih =>
    rw [List.map_cons, List.nodup_cons] at hnd
    rw [List.find?_cons]
    by_cases h : (a.id == s.id) = true
    · simp only [h]
      rcases List.mem_cons.mp hs with rfl | hst
      · rfl
      · exact absurd ((eq_of_beq h) ▸ List.mem_map_of_mem (fun x => x.id) hst) hnd.1
    · simp only [Bool.not_eq_true] at h
      simp only [h]
      rcases List.mem_cons.mp hs with rfl | hst
      · rw [beq_self_eq_true] at h
        cases h
      · exact ih hnd.2 hst

/-- With pairwise-distinct signal ids, the evaluator's `reasons` are
the matched signals' descriptions in rule-declaration order. -/
theorem reasons_eq_descriptions (rule : SiteLoginRedirectRule) (ctx : LoginRedirectContext)
    (hnd : (rule.signals.map (fun x => x.id)).Nodup) :
    reasons rule ctx
      = (rule.signals.filter (fun s => s.check ctx)).map (fun s => s.description) := by
  unfold reasons
  rw [matchedOutcomes_eq, List.map_map]
  apply List.map_congr_left
  intro s hsf
  have hmem : s ∈ rule.signals := List.mem_of_mem_filter hsf
  have hfind := find_signal_by_id hnd hmem
  simp only [Function.comp_apply]
  show (match rule.signals.find? (fun sig => sig.id == s.id) with
        | some signal => signal.description
        | none => s.id) = s.description
  rw [hfind]

/-! ## Registry lemmas -/

/-- With the registered rule set, resolution is exactly the Instagram
URL test. -/
theorem findRuleForUrl_eq (url : String) :
    findRuleForUrl url = if isInstagramUrl url then some instagramRule else none := by
  unfold findRuleForUrl loginRedirectRules
  rw [List.find?_cons]
  cases h : instagramRule.test url
  · simp only [List.find?_nil]
    rw [show instagramRule.test = isInstagramUrl from rfl] at h
    simp [h]
  · rw [show instagramRule.test = isInstagramUrl from rfl] at h
    simp [h]

/-- The only rule the registry can resolve is the Instagram rule. -/
theorem findRuleForUrl_some {url : String} {r : SiteLoginRedirectRule}
    (h : findRuleForUrl url = some r) : r = instagramRule := by
  rw [findRuleForUrl_eq] at h
  by_cases hi : isInstagramUrl url <;> simp [hi] at h
  exact h.symm

/-- None of the registered Instagram signals reads `browserUrl`, so the
evaluation does not depend on that context field. -/
theorem instagram_eval_ignores_browserUrl (o b bp : String) (m : Metadata) (h : String) (d : Html) :
    evaluateRule instagramRule
        { originalUrl := o, browserUrl := b, metadata := m, htmlContent := h, dom := d }
      = evaluateRule instagramRule
        { originalUrl := o, browserUrl := bp, metadata := m, htmlContent := h, dom := d } := rfl

/-- Shifting the accumulator out of the weight fold. -/
theorem foldl_weight_shift (l : List SignalOutcome) :
    ∀ n : Nat,
      l.foldl (fun sum r => sum + r.weight) n = n + l.foldl (fun sum r => sum + r.weight) 0 := by
  induction l with
  | nil => intro n; simp
  | cons a t ih =>
    intro n
    rw [List.foldl_cons, List.foldl_cons, ih (n + a.weight), ih (0 + a.weight)]
    omega

/-! ## The claims -/

/-- C1: for every threshold-mode rule carrying a threshold weight,
evaluation is positive iff the summed weight of the matched signals
reaches the threshold; the registered Instagram rule is such a rule
with threshold 3, so a context whose matched weight is exactly 2 gets a
negative verdict and a context whose matched weight reaches 3 gets a
positive one. -/
theorem c1_threshold_verdict :
    (∀ (rule : SiteLoginRedirectRule) (w : Nat) (ctx : LoginRedirectContext),
        rule.detectionMode = .threshold → rule.thresholdWeight = some w →
        ((evaluateRule rule ctx).isLoginRedirect = true ↔ w ≤ totalMatchedWeight rule ctx))
    ∧ instagramRule.detectionMode = .threshold
    ∧ instagramRule.thresholdWeight = some 3
    ∧ (∀ ctx : LoginRedirectContext,
        (totalMatchedWeight instagramRule ctx = 2 →
          (evaluateRule instagramRule ctx).isLoginRedirect = false)
        ∧ (3 ≤ totalMatchedWeight instagramRule ctx →
          (evaluateRule instagramRule ctx).isLoginRedirect = true)) := by
  have hmain : ∀ (rule : SiteLoginRedirectRule) (w : Nat) (ctx : LoginRedirectContext),
      rule.detectionMode = .threshold → rule.thresholdWeight = some w →
      ((evaluateRule rule ctx).isLoginRedirect = true ↔ w ≤ totalMatchedWeight rule ctx) := by
    intro rule w ctx hmode hw
    rw [evaluateRule_isLoginRedirect, ruleFired_threshold rule ctx hmode, hw]
    simp [ge_iff_le]
  refine ⟨hmain, rfl, rfl, ?_⟩
  intro ctx
  constructor
  · intro h2
    have hiff := hmain instagramRule 3 ctx rfl rfl
    rw [h2] at hiff
    cases hb : (evaluateRule instagramRule ctx).isLoginRedirect
    · rfl
    · exact absurd (hiff.mp hb) (by omega)
  · intro h3
    exact (hmain instagramRule 3 ctx rfl rfl).mpr h3

/-- C1 witness: in `thresholdTwoCtx` only the weight-2 `generic-title`
signal matches, so the verdict is negative; in `loginPageCtx` the
matched weight reaches 3 and the verdict is positive. -/
theorem c1_threshold_verdict_witness :
    totalMatchedWeight instagramRule thresholdTwoCtx = 2
    ∧ (evaluateRule instagramRule thresholdTwoCtx).isLoginRedirect = false
    ∧ 3 ≤ totalMatchedWeight instagramRule loginPageCtx
    ∧ (evaluateRule instagramRule loginPageCtx).isLoginRedirect = true :=
  ⟨by decide,
   (c1_threshold_verdict.2.2.2 thresholdTwoCtx).1 (by decide),
   by decide,
   (c1_threshold_verdict.2.2.2 loginPageCtx).2 (by decide)⟩

/-- C2 counterexample: `ftp://www.instagram.com/accounts/login/` is
matched by the Instagram rule's URL test while the original URL matches
no rule, yet `detectLoginRedirect` returns the no-rule negative result
instead of that rule's (positive) evaluation — `browserUrl` was
discarded by the HTTP/HTTPS validity check before the rules were
consulted. -/
theorem c2_counterexample :
    findRuleForUrl "https://example.com/instagram-redirect" = none
    ∧ findRuleForUrl "ftp://www.instagram.com/accounts/login/" = some instagramRule
    ∧ detectLoginRedirect (fun _ => loginPageDom) "https://example.com/instagram-redirect"
        "ftp://www.instagram.com/accounts/login/" loginMetadata "<html>"
      = { isLoginRedirect := false }
    ∧ (evaluateRule instagramRule
        { originalUrl := "https://example.com/instagram-redirect",
          browserUrl := "ftp://www.instagram.com/accounts/login/",
          metadata := loginMetadata, htmlContent := "<html>",
          dom := loginPageDom }).isLoginRedirect = true :=
  ⟨rfl, rfl, by decide, by decide⟩

/-- C2 (amended): rule resolution tries `originalUrl` first — a rule
matching `originalUrl` is always the one evaluated — and falls back to
the rule matching `browserUrl` provided `browserUrl` is a valid
HTTP/HTTPS URL. -/
theorem c2_resolution_order :
    ∀ (load : String → Html) (o b : String) (m : Metadata) (h : String),
      (∀ r : SiteLoginRedirectRule, findRuleForUrl o = some r →
        detectLoginRedirect load o b m h
          = evaluateRule r { originalUrl := o, browserUrl := b, metadata := m,
                             htmlContent := h, dom := load h })
      ∧ (findRuleForUrl o = none → isValidHttpUrl b = true →
         ∀ r : SiteLoginRedirectRule, findRuleForUrl b = some r →
          detectLoginRedirect load o b m h
            = evaluateRule r { originalUrl := o, browserUrl := b, metadata := m,
                               htmlContent := h, dom := load h }) := by
  intro load o b m h
  constructor
  · intro r hr
    unfold detectLoginRedirect
    rw [hr]
  · intro ho hb r hr
    unfold detectLoginRedirect
    rw [ho, hb, hr]
    simp

/-- C2 witness: with a matching original URL the resolved rule is the
Instagram rule; with a non-matching original URL and a valid HTTPS
browser URL that matches, the browser URL's rule is evaluated. -/
theorem c2_resolution_order_witness :
    detectLoginRedirect (fun _ => loginPageDom) "https://www.instagram.com/p/ABC123/"
        "https://www.instagram.com/accounts/login/" loginMetadata "<html>"
      = evaluateRule instagramRule loginPageCtx
    ∧ detectLoginRedirect (fun _ => loginPageDom) "https://example.com/instagram-redirect"
        "https://www.instagram.com/accounts/login/" loginMetadata "<html>"
      = evaluateRule instagramRule
          { originalUrl := "https://example.com/instagram-redirect",
            browserUrl := "https://www.instagram.com/accounts/login/",
            metadata := loginMetadata, htmlContent := "<html>", dom := loginPageDom } :=
  ⟨(c2_resolution_order (fun _ => loginPageDom) "https://www.instagram.com/p/ABC123/"
      "https://www.instagram.com/accounts/login/" loginMetadata "<html>").1 instagramRule rfl,
   (c2_resolution_order (fun _ => loginPageDom) "https://example.com/instagram-redirect"
      "https://www.instagram.com/accounts/login/" loginMetadata "<html>").2 rfl rfl instagramRule rfl⟩

/-- C3: when `browserUrl` is not a syntactically valid HTTP/HTTPS URL
it is ignored by rule resolution — the result is determined by
`originalUrl`'s resolution; the strings `""`, `"about:blank"` and
`"javascript:void(0)"` are all invalid in this sense, every parsable
URL with a non-web scheme is invalid in this sense, and any two invalid
`browserUrl`s give identical verdicts under the registered rule set. -/
theorem c3_invalid_browserUrl_ignored :
    (∀ (load : String → Html) (o b : String) (m : Metadata) (h : String),
        isValidHttpUrl b = false →
        detectLoginRedirect load o b m h =
          match findRuleForUrl o with
          | none => { isLoginRedirect := false }
          | some r => evaluateRule r { originalUrl := o, browserUrl := b, metadata := m,
                                       htmlContent := h, dom := load h })
    ∧ isValidHttpUrl "" = false
    ∧ isValidHttpUrl "about:blank" = false
    ∧ isValidHttpUrl "javascript:void(0)" = false
    ∧ (∀ (b : String) (u : ParsedUrl), parseURL b = some u →
        u.protocol ≠ "http:" → u.protocol ≠ "https:" → isValidHttpUrl b = false)
    ∧ (∀ (load : String → Html) (o b b' : String) (m : Metadata) (h : String),
        isValidHttpUrl b = false → isValidHttpUrl b' = false →
        detectLoginRedirect load o b m h = detectLoginRedirect load o b' m h) := by
  have hmain : ∀ (load : String → Html) (o b : String) (m : Metadata) (h : String),
      isValidHttpUrl b = false →
      detectLoginRedirect load o b m h =
        match findRuleForUrl o with
        | none => { isLoginRedirect := false }
        | some r => evaluateRule r { originalUrl := o, browserUrl := b, metadata := m,
                                     htmlContent := h, dom := load h } := by
    intro load o b m h hb
    unfold detectLoginRedirect
    rw [hb]
    cases hf : findRuleForUrl o <;> simp
  refine ⟨hmain, rfl, rfl, rfl, ?_, ?_⟩
  · intro b u hp h1 h2
    unfold isValidHttpUrl
    rw [hp]
    simp [h1, h2]
  · intro load o b b' m h hb hb'
    rw [hmain load o b m h hb, hmain load o b' m h hb']
    cases hf : findRuleForUrl o with
    | none => rfl
    | some r =>
      have hr : r = instagramRule := findRuleForUrl_some hf
      subst hr
      exact instagram_eval_ignores_browserUrl o b b' m h (load h)

/-- C3 witness: with `browserUrl = "about:blank"` the verdict is the
evaluation resolved from the original URL alone, and swapping one
invalid browser URL (`""`) for another (`"javascript:void(0)"`) leaves
the result unchanged. -/
theorem c3_invalid_browserUrl_ignored_witness :
    detectLoginRedirect (fun _ => loginPageDom) "https://www.instagram.com/p/ABC123/"
        "about:blank" loginMetadata "<html>"
      = evaluateRule instagramRule
          { originalUrl := "https://www.instagram.com/p/ABC123/", browserUrl := "about:blank",
            metadata := loginMetadata, htmlContent := "<html>", dom := loginPageDom }
    ∧ detectLoginRedirect (fun _ => loginPageDom) "https://www.instagram.com/p/ABC123/"
        "" loginMetadata "<html>"
      = detectLoginRedirect (fun _ => loginPageDom) "https://www.instagram.com/p/ABC123/"
        "javascript:void(0)" loginMetadata "<html>" :=
  ⟨c3_invalid_browserUrl_ignored.1 (fun _ => loginPageDom) "https://www.instagram.com/p/ABC123/"
      "about:blank" loginMetadata "<html>" rfl,
   c3_invalid_browserUrl_ignored.2.2.2.2.2 (fun _ => loginPageDom)
      "https://www.instagram.com/p/ABC123/" "" "javascript:void(0)" loginMetadata "<html>" rfl rfl⟩

/-- C4: when neither URL resolves a registered rule, the detector
returns exactly the negative result, whatever the metadata and page
content. -/
theorem c4_no_rule_negative :
    ∀ (load : String → Html) (o b : String) (m : Metadata) (h : String),
      findRuleForUrl o = none → findRuleForUrl b = none →
      detectLoginRedirect load o b m h = { isLoginRedirect := false } := by
  intro load o b m h ho hb
  unfold detectLoginRedirect
  rw [ho, hb]
  cases hv : isValidHttpUrl b <;> simp

/-- C4 witness: a non-registered domain with a page full of login
markers (password field, login keywords, generic title) still yields
the plain negative result. -/
theorem c4_no_rule_negative_witness :
    findRuleForUrl "https://example.com/page" = none
    ∧ detectLoginRedirect (fun _ => loginPageDom) "https://example.com/page"
        "https://example.com/page" loginMetadata "<html>" = { isLoginRedirect := false } :=
  ⟨rfl, c4_no_rule_negative (fun _ => loginPageDom) "https://example.com/page"
      "https://example.com/page" loginMetadata "<html>" rfl rfl⟩

/-- C5: for every rule whose signals have pairwise-distinct ids (the
data-model invariant) and every context, a positive reduction reports
the rule's site name and the matched signals' descriptions joined in
rule-declaration order with `"; "`, and a negative reduction reports
exactly the bare negative result with neither field populated. -/
theorem c5_result_shape :
    ∀ (rule : SiteLoginRedirectRule) (ctx : LoginRedirectContext),
      (rule.signals.map (fun s => s.id)).Nodup →
      ((evaluateRule rule ctx).isLoginRedirect = true →
        evaluateRule rule ctx =
          { isLoginRedirect := true,
            siteName := some rule.siteName,
            reason := some (String.intercalate "; "
              ((rule.signals.filter (fun s => s.check ctx)).map (fun s => s.description))) })
      ∧ ((evaluateRule rule ctx).isLoginRedirect = false →
        evaluateRule rule ctx = { isLoginRedirect := false, reason := none, siteName := none }) := by
  intro rule ctx hnd
  constructor
  · intro hpos
    rw [evaluateRule_isLoginRedirect] at hpos
    rw [evaluateRule_of_fired rule ctx hpos, reasons_eq_descriptions rule ctx hnd]
  · intro hneg
    rw [evaluateRule_isLoginRedirect] at hneg
    exact evaluateRule_of_not_fired rule ctx hneg

/-- C5 witness: on the login-page context all five Instagram signals
match and the reason is their five descriptions joined with `"; "`; on
the threshold-2 context the result is the bare negative record. -/
theorem c5_result_shape_witness :
    (instagramRule.signals.map (fun s => s.id)).Nodup
    ∧ evaluateRule instagramRule loginPageCtx =
        { isLoginRedirect := true,
          siteName := some "Instagram",
          reason := some "Page title is generic 'Instagram' instead of post-specific; og:url points to homepage instead of requested URL; Page contains password input field (login form); Page contains prominent login/signup buttons; Page lacks expected post content structure" }
    ∧ evaluateRule instagramRule thresholdTwoCtx
        = { isLoginRedirect := false, reason := none, siteName := none } := by
  refine ⟨by decide, ?_, ?_⟩
  · rw [(c5_result_shape instagramRule loginPageCtx (by decide)).1 (by decide)]
    decide
  · exact (c5_result_shape instagramRule thresholdTwoCtx (by decide)).2 (by decide)

/-- C6: `assertNoLoginRedirect` fails with an error iff
`detectLoginRedirect` on the same input is positive; any error it fails
with carries the detected site name, the detection reason and the
original URL; on a negative detection it returns normally (and
`detectLoginRedirect` itself is a total function returning the
structured result, never a throw). -/
theorem c6_assert_error_iff :
    ∀ (load : String → Html) (o b : String) (m : Metadata) (h : String),
      ((∃ e : LoginRedirectDetectedError,
          assertNoLoginRedirect load o b m h = Except.error e)
        ↔ (detectLoginRedirect load o b m h).isLoginRedirect = true)
      ∧ (∀ e : LoginRedirectDetectedError,
          assertNoLoginRedirect load o b m h = Except.error e →
          e.siteName = (detectLoginRedirect load o b m h).siteName.getD "Unknown"
          ∧ e.reason = (detectLoginRedirect load o b m h).reason.getD "Login redirect detected"
          ∧ e.originalUrl = o)
      ∧ ((detectLoginRedirect load o b m h).isLoginRedirect = false →
          assertNoLoginRedirect load o b m h = Except.ok ()) := by
  intro load o b m h
  unfold assertNoLoginRedirect
  cases hd : (detectLoginRedirect load o b m h).isLoginRedirect
  · simp [hd]
  · simp [hd]

/-- C6 witness: the redirected login crawl makes the throwing facade
fail with an error, the clean post crawl makes it return normally. -/
theorem c6_assert_error_iff_witness :
    (∃ e : LoginRedirectDetectedError,
        assertNoLoginRedirect (fun _ => loginPageDom) "https://www.instagram.com/p/ABC123/"
          "https://www.instagram.com/accounts/login/" loginMetadata "<html>" = Except.error e)
    ∧ assertNoLoginRedirect (fun _ => postPageDom) "https://www.instagram.com/p/ABC123/"
        "https://www.instagram.com/p/ABC123/" postMetadata "<html>" = Except.ok () :=
  ⟨(c6_assert_error_iff (fun _ => loginPageDom) "https://www.instagram.com/p/ABC123/"
      "https://www.instagram.com/accounts/login/" loginMetadata "<html>").1.mpr (by decide),
   (c6_assert_error_iff (fun _ => postPageDom) "https://www.instagram.com/p/ABC123/"
      "https://www.instagram.com/p/ABC123/" postMetadata "<html>").2.2 (by decide)⟩

/-- C7: the Instagram rule's URL test accepts exactly the URLs whose
parsed hostname is `instagram.com` or ends with `.instagram.com` (dot
anchored), rejects every unparsable URL instead of raising, and in
particular accepts `instagram.com` with its subdomains while rejecting
`notinstagram.com`, `instagram.fake.com`, `instagram.com.evil.tld`, the
empty string, plain text and scheme-less strings. -/
theorem c7_instagram_url_test :
    instagramRule.test = isInstagramUrl
    ∧ (∀ url : String, isInstagramUrl url = true ↔
        (∃ u : ParsedUrl, parseURL url = some u ∧
          (u.hostname = "instagram.com" ∨ jsEndsWith u.hostname ".instagram.com" = true)))
    ∧ (∀ url : String, parseURL url = none → isInstagramUrl url = false)
    ∧ isInstagramUrl "https://instagram.com/p/ABC123/" = true
    ∧ isInstagramUrl "https://www.instagram.com/p/ABC123/" = true
    ∧ isInstagramUrl "https://help.instagram.com/" = true
    ∧ isInstagramUrl "https://notinstagram.com/" = false
    ∧ isInstagramUrl "https://instagram.fake.com/" = false
    ∧ isInstagramUrl "https://instagram.com.evil.tld/" = false
    ∧ isInstagramUrl "" = false
    ∧ isInstagramUrl "not-a-url" = false
    ∧ isInstagramUrl "www.instagram.com/p/ABC123/" = false := by
  refine ⟨rfl, ?_, ?_, by decide, by decide, by decide, by decide, by decide, by decide,
    by decide, by decide, by decide⟩
  · intro url
    unfold isInstagramUrl
    cases hp : parseURL url <;> simp
  · intro url hp
    unfold isInstagramUrl
    rw [hp]

/-- C7 witness: the unparsable string is rejected via the
parse-failure clause, and a subdomain URL is accepted via the
hostname-suffix characterization. -/
theorem c7_instagram_url_test_witness :
    isInstagramUrl "not-a-url" = false
    ∧ isInstagramUrl "https://help.instagram.com/" = true :=
  ⟨c7_instagram_url_test.2.2.1 "not-a-url" rfl,
   (c7_instagram_url_test.2.1 "https://help.instagram.com/").mpr
     ⟨{ protocol := "https:", hostname := "help.instagram.com", pathname := "/" },
      by decide, Or.inr (by decide)⟩⟩

/-- C8: the registered `login-button-present` signal matches a context
iff the page's visible body text — with `script`, `style` and
`noscript` subtrees removed, lower-cased — contains all of "log in",
"sign up" and "forgot password"; a page carrying the three phrases only
inside those non-rendered containers does not trigger it (although its
raw body text does contain them), while the phrases in rendered body
text do trigger it. -/
theorem c8_keyword_signal_visible_text :
    (instagramSignals.find? (fun s => s.id == "login-button-present")).map (fun s => s.check)
      = some loginButtonPresentCheck
    ∧ (∀ ctx : LoginRedirectContext,
        loginButtonPresentCheck ctx = true ↔
          (jsIncludes (jsToLower ctx.dom.bodyVisibleText) "log in" = true
            ∧ jsIncludes (jsToLower ctx.dom.bodyVisibleText) "sign up" = true
            ∧ jsIncludes (jsToLower ctx.dom.bodyVisibleText) "forgot password" = true))
    ∧ loginButtonPresentCheck hiddenKeywordsCtx = false
    ∧ jsIncludes (jsToLower hiddenKeywordsCtx.dom.bodyAllText) "log in" = true
    ∧ jsIncludes (jsToLower hiddenKeywordsCtx.dom.bodyAllText) "sign up" = true
    ∧ jsIncludes (jsToLower hiddenKeywordsCtx.dom.bodyAllText) "forgot password" = true
    ∧ loginButtonPresentCheck visibleKeywordsCtx = true := by
  refine ⟨rfl, ?_, by decide, by decide, by decide, by decide, by decide⟩
  intro ctx
  unfold loginButtonPresentCheck
  simp [Bool.and_eq_true, and_assoc]

/-- C8 witness: the keyword signal fires on the rendered-text page and
stays silent on the page hiding the phrases in non-rendered
containers. -/
theorem c8_keyword_signal_visible_text_witness :
    loginButtonPresentCheck visibleKeywordsCtx = true
    ∧ loginButtonPresentCheck hiddenKeywordsCtx = false := by
  constructor
  · exact (c8_keyword_signal_visible_text.2.1 visibleKeywordsCtx).mpr
      ⟨by decide, by decide, by decide⟩
  · cases hb : loginButtonPresentCheck hiddenKeywordsCtx
    · rfl
    · have hall := (c8_keyword_signal_visible_text.2.1 hiddenKeywordsCtx).mp hb
      revert hall
      decide

/-- C9 counterexample: on an original URL matching no rule and the
browser URL `ftp://www.instagram.com/accounts/login/`, the validating
revision returns the negative no-rule result while the non-validating
revision resolves the Instagram rule through the browser URL and
returns a positive verdict, so the two `detectLoginRedirect` revisions
are not equivalent. -/
theorem c9_counterexample :
    detectLoginRedirect (fun _ => loginPageDom) "https://example.com/instagram-redirect"
        "ftp://www.instagram.com/accounts/login/" loginMetadata "<html>"
      ≠ detectLoginRedirectNoUrlValidation (fun _ => loginPageDom)
        "https://example.com/instagram-redirect"
        "ftp://www.instagram.com/accounts/login/" loginMetadata "<html>" := by
  decide

/-- C9 (amended): the two `detectLoginRedirect` revisions agree on
every input in which the original URL resolves a rule, or the browser
URL is a valid HTTP/HTTPS URL, or the browser URL matches no registered
rule — i.e. everywhere except when a non-HTTP(S) browser URL is the
only match. -/
theorem c9_variants_agree :
    ∀ (load : String → Html) (o b : String) (m : Metadata) (h : String),
      ((findRuleForUrl o).isSome = true ∨ isValidHttpUrl b = true ∨ findRuleForUrl b = none) →
      detectLoginRedirect load o b m h = detectLoginRedirectNoUrlValidation load o b m h := by
  intro load o b m h hyp
  unfold detectLoginRedirect detectLoginRedirectNoUrlValidation
  cases ho : findRuleForUrl o with
  | some r => rfl
  | none =>
    rcases hyp with hs | hv | hn
    · rw [ho] at hs
      cases hs
    · rw [hv]
      simp
    · rw [hn]
      cases hv : isValidHttpUrl b <;> simp [hv]

/-- C9 witness: with a valid HTTPS browser URL the two revisions agree
(here: both positive through the browser URL's rule). -/
theorem c9_variants_agree_witness :
    detectLoginRedirect (fun _ => loginPageDom) "https://example.com/instagram-redirect"
        "https://www.instagram.com/accounts/login/" loginMetadata "<html>"
      = detectLoginRedirectNoUrlValidation (fun _ => loginPageDom)
        "https://example.com/instagram-redirect"
        "https://www.instagram.com/accounts/login/" loginMetadata "<html>" :=
  c9_variants_agree (fun _ => loginPageDom) "https://example.com/instagram-redirect"
    "https://www.instagram.com/accounts/login/" loginMetadata "<html>"
    (Or.inr (Or.inl (by decide)))

/-- C10: the evaluator defaults an unset signal weight to 1 — in
threshold mode with an unset threshold the verdict is positive iff the
matched weight reaches 2, an unset-weight signal's outcome carries
weight 1, and prepending a matched unset-weight signal to a rule raises
the matched weight by exactly 1. -/
theorem c10_defaults :
    (∀ (rule : SiteLoginRedirectRule) (ctx : LoginRedirectContext),
        rule.detectionMode = .threshold → rule.thresholdWeight = none →
        ((evaluateRule rule ctx).isLoginRedirect = true ↔ 2 ≤ totalMatchedWeight rule ctx))
    ∧ (∀ (ctx : LoginRedirectContext) (s : DetectionSignal), s.weight = none →
        (signalOutcome ctx s).weight = 1)
    ∧ (∀ (rule : SiteLoginRedirectRule) (ctx : LoginRedirectContext) (s : DetectionSignal),
        s.weight = none → s.check ctx = true →
        totalMatchedWeight { rule with signals := s :: rule.signals } ctx
          = 1 + totalMatchedWeight rule ctx) := by
  refine ⟨?_, ?_, ?_⟩
  · intro rule ctx hmode hw
    rw [evaluateRule_isLoginRedirect, ruleFired_threshold rule ctx hmode, hw]
    simp [ge_iff_le]
  · intro ctx s hw
    unfold signalOutcome
    rw [hw]
    rfl
  · intro rule ctx s hw hc
    have hm : (signalOutcome ctx s).matched = true := hc
    have hw1 : (signalOutcome ctx s).weight = 1 := by
      unfold signalOutcome
      rw [hw]
      rfl
    unfold totalMatchedWeight matchedOutcomes signalOutcomes
    dsimp only
    rw [List.map_cons, List.filter_cons]
    simp only [hm, if_true]
    rw [List.foldl_cons, hw1, foldl_weight_shift]

/-- C10 witness: the rule with two always-matching unweighted signals
and no declared threshold evaluates positive (2 ≥ default 2), an
unweighted signal's outcome weighs 1, and prepending a third matched
unweighted signal raises the matched weight from 2 to 3. -/
theorem c10_defaults_witness :
    (signalOutcome emptyCtx (defaultWeightSignal "s1")).weight = 1
    ∧ (evaluateRule defaultThresholdRule emptyCtx).isLoginRedirect = true
    ∧ totalMatchedWeight
        { defaultThresholdRule with
            signals := defaultWeightSignal "s0" :: defaultThresholdRule.signals } emptyCtx
      = 1 + totalMatchedWeight defaultThresholdRule emptyCtx :=
  ⟨c10_defaults.2.1 emptyCtx (defaultWeightSignal "s1") rfl,
   (c10_defaults.1 defaultThresholdRule emptyCtx rfl rfl).mpr (by decide),
   c10_defaults.2.2 defaultThresholdRule emptyCtx (defaultWeightSignal "s0") rfl rfl⟩
